import Mathlib

/-!
Verification of the `zora` Layer2 configuration record
(`packages/config/src/layer2s/zora.ts`) against its specification.

The record is a declarative data structure built from an external
discovery snapshot and shared classification tables.  Helpers that are
imported by `zora.ts` but whose source is not part of the given slice
(`getStage`, the `ProjectDiscovery` accessor, the `RISK_VIEW` /
`DATA_AVAILABILITY` / `EXITS` / `OPERATOR` tables, `formatSeconds`,
`HARDCODED`) are modelled from the specification; everything that is in
`zora.ts` itself — the field wiring, the literal criteria, escrows,
risk-view sources and technology references — is translated directly
from that file.
-/

namespace Zora

/-- A text/href evidence reference as it appears in technology sections. -/
structure Reference where
  text : String
  href : String
deriving DecidableEq, Repr

/-- A risk item attached to a technology section
(`category` / `text` / `isCritical`). -/
structure RiskItem where
  category : String
  text : String
  isCritical : Bool
deriving DecidableEq, Repr

/-- One technology section: name, description, risks, references. -/
structure TechnologyChoice where
  name : String
  description : String
  risks : List RiskItem
  references : List Reference
deriving DecidableEq, Repr

/-- The `technology` block of the record, mirroring the fields of
`zora.ts` lines 211-318. -/
structure Technology where
  stateCorrectness : TechnologyChoice
  dataAvailability : TechnologyChoice
  operator : TechnologyChoice
  forceTransactions : TechnologyChoice
  exitMechanisms : List TechnologyChoice
  smartContracts : TechnologyChoice
deriving DecidableEq, Repr

/-- Modelled from the spec: the Shared Classification Tables
(`RISK_VIEW`, §4.1) are external to the given source.  Each table entry
used by `zora.ts` is modelled as a constructor; parameterised entries
(`EXIT_WINDOW`, `SEQUENCER_SELF_SEQUENCE`) record the exact arguments
they were applied to. -/
inductive RiskEntry where
  | STATE_NONE
  | DATA_ON_CHAIN
  | EXIT_WINDOW (upgradeDelay : Nat) (challengePeriod : Nat)
  | SEQUENCER_SELF_SEQUENCE (sequencingWindowSeconds : Nat)
  | PROPOSER_CANNOT_WITHDRAW
  | NATIVE_AND_CANONICAL
  | VALIDATED_BY_ETHEREUM
deriving DecidableEq, Repr

/-- A `sources` entry of a risk-view dimension: a contract name plus a
list of reference URLs. -/
structure SourceEntry where
  contract : String
  references : List String
deriving DecidableEq, Repr

/-- A risk-view dimension value: the classification-table entry plus its
evidence sources. -/
structure RiskViewEntry where
  entry : RiskEntry
  sources : List SourceEntry
deriving DecidableEq, Repr

/-- The `riskView` block of the record (`zora.ts` lines 131-183): the
seven named risk dimensions. -/
structure RiskView where
  stateValidation : RiskViewEntry
  dataAvailability : RiskViewEntry
  exitWindow : RiskViewEntry
  sequencerFailure : RiskViewEntry
  proposerFailure : RiskViewEntry
  destinationToken : RiskViewEntry
  validatedBy : RiskViewEntry
deriving DecidableEq, Repr

/-- The token selection of an escrow: either the wildcard `'*'`
(all tokens) or an explicit list of token symbols. -/
inductive TokenSelection where
  | wildcard
  | tokenList (symbols : List String)
deriving DecidableEq, Repr

/-- Parameters passed to `discovery.getEscrowDetails` in `zora.ts`.
The upgrade fields are optional because the object literal lists them
only through the trailing `...upgradesProxy` spread. -/
structure EscrowParams where
  address : String
  sinceTimestamp : Nat
  tokens : TokenSelection
  description : String
  upgradableBy : Option (List String)
  upgradeDelay : Option String
deriving DecidableEq, Repr

/-- The escrow configuration produced by `getEscrowDetails`. -/
structure EscrowConfig where
  address : String
  sinceTimestamp : Nat
  tokens : TokenSelection
  description : String
  upgradableBy : Option (List String)
  upgradeDelay : Option String
deriving DecidableEq, Repr

/-- The `upgradesProxy` constant of `zora.ts` lines 29-32. -/
structure Upgrades where
  upgradableBy : List String
  upgradeDelay : String
deriving DecidableEq, Repr

/-- The `transactionApi` descriptor (`zora.ts` lines 100-106).  The
`assessCount` function reference (`subtractOne`) is modelled by its
name. -/
structure TransactionApi where
  type : String
  startBlock : Nat
  url : String
  callsPerMinute : Nat
  assessCount : String
deriving DecidableEq, Repr

/-- A liveness batch-submission tracking entry (`zora.ts` lines 110-115).
The TS field `from` is rendered `fromAddress` (`from` is a Lean
keyword). -/
structure LivenessTransfer where
  formula : String
  fromAddress : String
  toAddress : String
  sinceTimestamp : Nat
deriving DecidableEq, Repr

/-- A liveness state-update tracking entry (`zora.ts` lines 117-128). -/
structure LivenessFunctionCall where
  formula : String
  address : String
  selector : String
  functionSignature : String
  sinceTimestamp : Nat
deriving DecidableEq, Repr

/-- The `config.liveness` tracking block. -/
structure LivenessConfig where
  proofSubmissions : List LivenessTransfer
  batchSubmissions : List LivenessTransfer
  stateUpdates : List LivenessFunctionCall
deriving DecidableEq, Repr

/-- The `config` block of the record. -/
structure Config where
  escrows : List EscrowConfig
  transactionApi : TransactionApi
  liveness : LivenessConfig
deriving DecidableEq, Repr

/-- The `display.liveness` block.  The TS `explanation` is a template
string interpolating `formatSeconds` of two numbers; the shallow
embedding keeps the interpolated numbers themselves
(`formatSeconds` is outside the given source). -/
structure LivenessDisplay where
  stateUpdatesWarning : String
  sequencingWindowSeconds : Nat
  finalizationPeriodSeconds : Nat
deriving DecidableEq, Repr

/-- The external-links block of `display` (`zora.ts` lines 55-69). -/
structure Links where
  websites : List String
  apps : List String
  documentation : List String
  explorers : List String
  repositories : List String
  socialMedia : List String
deriving DecidableEq, Repr

/-- The `display` block of the record. -/
structure Display where
  name : String
  slug : String
  warning : String
  description : String
  purpose : String
  provider : String
  category : String
  dataAvailabilityMode : String
  links : Links
  activityDataSource : String
  liveness : LivenessDisplay
deriving DecidableEq, Repr

/-- A resolved permission entry (actor name, address, description). -/
structure PermissionEntry where
  name : String
  address : String
  description : String
deriving DecidableEq, Repr

/-- Contract details as produced by `getContractDetails` /
`getOpStackContractDetails`. -/
structure ContractDetails where
  name : String
  description : String
  upgradableBy : Option (List String)
  upgradeDelay : Option String
deriving DecidableEq, Repr

/-- The `contracts` block of the record. -/
structure Contracts where
  addresses : List ContractDetails
  risks : List String
deriving DecidableEq, Repr

/-- A milestone entry. -/
structure Milestone where
  name : String
  link : String
  date : String
  description : String
deriving DecidableEq, Repr

/-- A knowledge-nugget entry. -/
structure KnowledgeNugget where
  title : String
  url : String
  thumbnail : String
deriving DecidableEq, Repr

/-- Stage-0 criteria fields of the stage checklist; each field is a
nullable boolean (`none` models `null`). -/
structure Stage0Criteria where
  callsItselfRollup : Option Bool
  stateRootsPostedToL1 : Option Bool
  dataAvailabilityOnL1 : Option Bool
  rollupNodeSourceAvailable : Option Bool
deriving DecidableEq, Repr

/-- Stage-1 criteria fields of the stage checklist. -/
structure Stage1Criteria where
  stateVerificationOnL1 : Option Bool
  fraudProofSystemAtLeast5Outsiders : Option Bool
  usersHave7DaysToExit : Option Bool
  usersCanExitWithoutCooperation : Option Bool
  securityCouncilProperlySetUp : Option Bool
deriving DecidableEq, Repr

/-- Stage-2 criteria fields of the stage checklist. -/
structure Stage2Criteria where
  proofSystemOverriddenOnlyInCaseOfABug : Option Bool
  fraudProofSystemIsPermissionless : Option Bool
  delayWith30DExitWindow : Option Bool
deriving DecidableEq, Repr

/-- The three-tier stage checklist passed to `getStage`. -/
structure StageCriteria where
  stage0 : Stage0Criteria
  stage1 : Stage1Criteria
  stage2 : Stage2Criteria
deriving DecidableEq, Repr

/-- The context argument of `getStage` in `zora.ts` lines 205-208. -/
structure StageContext where
  rollupNodeLink : String
deriving DecidableEq, Repr

/-- The result of the stage classifier: the computed tier (`none` when
no tier is fully satisfied) plus the context link. -/
structure StageResult where
  stage : Option Nat
  rollupNodeLink : String
deriving DecidableEq, Repr

/-- The whole Layer2 record, mirroring the top-level fields of the
`zora` object. -/
structure Layer2 where
  type : String
  id : String
  display : Display
  config : Config
  riskView : RiskView
  stage : StageResult
  stateDerivation : String
  technology : Technology
  permissions : List PermissionEntry
  contracts : Contracts
  milestones : List Milestone
  knowledgeNuggets : List KnowledgeNugget
deriving DecidableEq, Repr

/-- Modelled from the spec: the error taxonomy of §7 for the discovery
accessor and builder. -/
inductive DiscoveryError where
  | MissingField
  | UnknownRole
  | InvalidAddress
  | InvalidTimestamp
deriving DecidableEq, Repr

/-- Modelled from the spec: a discovery snapshot is a read-only mapping
from `(contractName, fieldName)` to typed values and from role or
multisig names to addresses (§6). -/
structure DiscoverySnapshot where
  contractValues : String → String → Option Nat
  multisigAddresses : String → Option String
  roleAddresses : String → Option String

/-- The stage-0 fields in declaration order. -/
def Stage0Criteria.fields (c : Stage0Criteria) : List (Option Bool) :=
  [c.callsItselfRollup, c.stateRootsPostedToL1, c.dataAvailabilityOnL1,
   c.rollupNodeSourceAvailable]

/-- The stage-1 fields in declaration order. -/
def Stage1Criteria.fields (c : Stage1Criteria) : List (Option Bool) :=
  [c.stateVerificationOnL1, c.fraudProofSystemAtLeast5Outsiders,
   c.usersHave7DaysToExit, c.usersCanExitWithoutCooperation,
   c.securityCouncilProperlySetUp]

/-- The stage-2 fields in declaration order. -/
def Stage2Criteria.fields (c : Stage2Criteria) : List (Option Bool) :=
  [c.proofSystemOverriddenOnlyInCaseOfABug, c.fraudProofSystemIsPermissionless,
   c.delayWith30DExitWindow]

/-- A tier is satisfied when every non-null field of it is true
(null fields are excluded from failure, spec §4.3). -/
def tierSatisfied (fields : List (Option Bool)) : Bool :=
  fields.all (fun f => f.getD true)

/-- All tiers up to and including `n` are satisfied. -/
def satisfiedUpTo (c : StageCriteria) : Nat → Bool
  | 0 => tierSatisfied c.stage0.fields
  | 1 => tierSatisfied c.stage0.fields && tierSatisfied c.stage1.fields
  | _ + 2 => tierSatisfied c.stage0.fields && tierSatisfied c.stage1.fields &&
      tierSatisfied c.stage2.fields

/-- The computed tier: the highest tier whose prefix of tiers is fully
satisfied, `none` when even stage 0 is not. -/
def stageLevel (c : StageCriteria) : Option Nat :=
  if tierSatisfied c.stage0.fields then
    if tierSatisfied c.stage1.fields then
      if tierSatisfied c.stage2.fields then some 2 else some 1
    else some 0
  else none

/-- Modelled from the spec: `getStage` lives in
`layer2s/common/stages/getStage`, outside the given source.  Per §4.3 a
record satisfies `stageN` only if every non-null field at tier ≤ N is
true, and the result is the highest tier fully satisfied; the
under-review clamp for nulls is declared policy-undetermined by the
spec (§9) and is not modelled.  Deterministic, no I/O. -/
def getStage (c : StageCriteria) (ctx : StageContext) : StageResult :=
  { stage := stageLevel c, rollupNodeLink := ctx.rollupNodeLink }

/-- Rank of a stage outcome for comparisons: no tier at all ranks below
Stage 0. -/
def stageRank : Option Nat → Nat
  | none => 0
  | some n => n + 1

/-- `l'` is `l` with exactly one field changed from `true` to `false`. -/
def downgradeAt (l l' : List (Option Bool)) : Prop :=
  ∃ p s, l = p ++ some true :: s ∧ l' = p ++ some false :: s

/-- `c'` is `c` with exactly one required (true) field of one tier
changed to false, all other fields unchanged. -/
def singleDowngrade (c c' : StageCriteria) : Prop :=
  (downgradeAt c.stage0.fields c'.stage0.fields ∧ c'.stage1 = c.stage1 ∧
    c'.stage2 = c.stage2) ∨
  (downgradeAt c.stage1.fields c'.stage1.fields ∧ c'.stage0 = c.stage0 ∧
    c'.stage2 = c.stage2) ∨
  (downgradeAt c.stage2.fields c'.stage2.fields ∧ c'.stage0 = c.stage0 ∧
    c'.stage1 = c.stage1)

/-- Modelled from the spec: `discovery.getContractValue` (§4.2) fails
with `MissingField` if the discovery snapshot lacks that
contract/field; it never substitutes a default. -/
def getContractValue (s : DiscoverySnapshot) (contractName fieldName : String) :
    Except DiscoveryError Nat :=
  match s.contractValues contractName fieldName with
  | some v => .ok v
  | none => .error .MissingField

/-- Modelled from the spec: a well-formed Ethereum address literal, as
accepted by `getEscrowDetails` (0x-prefixed, 42 characters). -/
def isValidAddress (a : String) : Bool :=
  match a.data with
  | '0' :: 'x' :: rest => rest.length == 40
  | _ => false

/-- Modelled from the spec: `getEscrowDetails` (§4.2) is a pure
transformation/validation of caller-supplied parameters; it fails with
`InvalidAddress` or `InvalidTimestamp` on malformed input and otherwise
passes the parameters through. -/
def getEscrowDetails (p : EscrowParams) : Except DiscoveryError EscrowConfig :=
  if isValidAddress p.address then
    if 0 < p.sinceTimestamp then
      .ok { address := p.address, sinceTimestamp := p.sinceTimestamp,
            tokens := p.tokens, description := p.description,
            upgradableBy := p.upgradableBy, upgradeDelay := p.upgradeDelay }
    else .error .InvalidTimestamp
  else .error .InvalidAddress

/-- Modelled from the spec: `getMultisigPermission` (§4.2) resolves a
multisig name to its previously-discovered address and fails with
`UnknownRole` if the name has no discovered address. -/
def getMultisigPermission (s : DiscoverySnapshot) (name description : String) :
    Except DiscoveryError (List PermissionEntry) :=
  match s.multisigAddresses name with
  | some addr => .ok [{ name := name, address := addr, description := description }]
  | none => .error .UnknownRole

/-- Modelled from the spec: `getOpStackPermissions` (§4.2) resolves each
role name of the role map to a discovered address, failing with
`UnknownRole` when one is missing. -/
def getOpStackPermissions (s : DiscoverySnapshot) :
    List (String × String) → Except DiscoveryError (List PermissionEntry)
  | [] => .ok []
  | (role, label) :: rest =>
    match s.roleAddresses role with
    | none => .error .UnknownRole
    | some addr => do
      let tail ← getOpStackPermissions s rest
      .ok ({ name := label, address := addr, description := "" } :: tail)

/-- Modelled from the spec: `getContractDetails` (§4.2) packages a
contract name with the supplied metadata. -/
def getContractDetails (name description : String) (u : Upgrades) :
    ContractDetails :=
  { name := name, description := description,
    upgradableBy := some u.upgradableBy, upgradeDelay := some u.upgradeDelay }

/-- Modelled from the spec: the standard OP-stack system contracts
covered by `getOpStackContractDetails`; the exact list lives outside
the given source. -/
def opStackContractNames : List String :=
  ["OptimismPortal", "L2OutputOracle", "SystemConfig", "L1StandardBridge",
   "L1CrossDomainMessenger"]

/-- Modelled from the spec: `getOpStackContractDetails` (§4.2) returns
details for the standard OP-stack contracts, each carrying the supplied
upgrade metadata. -/
def getOpStackContractDetails (u : Upgrades) : List ContractDetails :=
  opStackContractNames.map (fun n =>
    { name := n, description := "", upgradableBy := some u.upgradableBy,
      upgradeDelay := some u.upgradeDelay })

/-- The `upgradesProxy` constant (`zora.ts` lines 29-32). -/
def upgradesProxy : Upgrades :=
  { upgradableBy := ["ProxyAdmin"], upgradeDelay := "No delay" }

/-- The `upgradeDelay = 0` constant (`zora.ts` line 39). -/
def upgradeDelay : Nat := 0

/-- Modelled from the spec: `HARDCODED.OPTIMISM.SEQUENCING_WINDOW_SECONDS`
is an external hardcoded constant; its exact value lives outside the
given source and does not affect any claim. -/
def SEQUENCING_WINDOW_SECONDS : Nat := 43200

/-- Modelled from the spec: `OPTIMISTIC_ROLLUP_STATE_UPDATES_WARNING` is
an external shared warning string. -/
def OPTIMISTIC_ROLLUP_STATE_UPDATES_WARNING : String :=
  "Optimistic rollup state updates warning"

/-- The explicit fields of the first escrow parameter object
(`zora.ts` lines 85-88), before the `...upgradesProxy` spread. -/
def escrow1Base : EscrowParams :=
  { address := "0x1a0ad011913A150f69f6A19DF447A0CfD9551054",
    sinceTimestamp := 1686607200,
    tokens := .tokenList ["ETH"],
    description := "Main entry point for users depositing ETH.",
    upgradableBy := none,
    upgradeDelay := none }

/-- The explicit fields of the second escrow parameter object
(`zora.ts` lines 92-96), before the `...upgradesProxy` spread. -/
def escrow2Base : EscrowParams :=
  { address := "0x3e2Ea9B92B7E48A52296fD261dc26fd995284631",
    sinceTimestamp := 1686607200,
    tokens := .wildcard,
    description :=
      "Main entry point for users depositing ERC20 token that do not require custom gateway.",
    upgradableBy := none,
    upgradeDelay := none }

/-- The `...upgradesProxy` trailing spread of the escrow parameter
objects: the later spread fields win over any earlier value of the same
fields, all other fields are preserved. -/
def applyUpgradesProxy (p : EscrowParams) (u : Upgrades) : EscrowParams :=
  { p with upgradableBy := some u.upgradableBy,
           upgradeDelay := some u.upgradeDelay }

/-- The stage criteria literal of `zora.ts` lines 186-204. -/
def zoraStageCriteria : StageCriteria :=
  { stage0 :=
      { callsItselfRollup := some true,
        stateRootsPostedToL1 := some true,
        dataAvailabilityOnL1 := some true,
        rollupNodeSourceAvailable := some true },
    stage1 :=
      { stateVerificationOnL1 := some false,
        fraudProofSystemAtLeast5Outsiders := none,
        usersHave7DaysToExit := some false,
        usersCanExitWithoutCooperation := some false,
        securityCouncilProperlySetUp := none },
    stage2 :=
      { proofSystemOverriddenOnlyInCaseOfABug := none,
        fraudProofSystemIsPermissionless := none,
        delayWith30DExitWindow := some false } }

/-- The stage context literal of `zora.ts` lines 205-208. -/
def zoraStageContext : StageContext :=
  { rollupNodeLink :=
      "https://github.com/ethereum-optimism/optimism/tree/develop/op-node" }

/-- Modelled from the spec: base entries of the shared technology
tables (`DATA_AVAILABILITY.ON_CHAIN_CANONICAL`,
`OPERATOR.CENTRALIZED_OPERATOR`, `FORCE_TRANSACTIONS.CANONICAL_ORDERING`,
`EXITS.REGULAR`, `EXITS.FORCED`) live outside the given source; in
`zora.ts` their `references` are overridden by the explicit literals,
so only their name/description/risks shape matters here. -/
def tableBase (n : String) : TechnologyChoice :=
  { name := n, description := n, risks := [], references := [] }

/-- Modelled from the spec: `EXITS.RISK_CENTRALIZED_VALIDATOR` shared
risk item, external to the given source. -/
def RISK_CENTRALIZED_VALIDATOR : RiskItem :=
  { category := "Funds can be stolen if",
    text := "the centralized validator misbehaves.",
    isCritical := true }

/-- The `technology` block of `zora.ts` lines 211-318: the explicit
reference literals attached to each section. -/
def zoraTechnology : Technology :=
  { stateCorrectness :=
      { name := "Fraud proofs are in development",
        description :=
          "Ultimately, OP stack chains will use interactive fraud proofs to enforce state correctness. This feature is currently in development and the system permits invalid state roots.",
        risks :=
          [{ category := "Funds can be stolen if",
             text := "an invalid state root is submitted to the system.",
             isCritical := true }],
        references :=
          [{ text := "L2OutputOracle.sol#L141 - Etherscan source code, deleteL2Outputs function",
             href := "https://etherscan.io/address/0x9eedde6b4D3263b97209Ba860eDF3Fc6a8fB6a44#code#F1#L141" }] },
    dataAvailability :=
      { tableBase "ON_CHAIN_CANONICAL" with references :=
          [{ text := "Derivation: Batch submission - OP Stack specs",
             href := "https://github.com/ourzora/optimism/blob/develop/specs/derivation.md#batch-submission" },
           { text := "BatchInbox - Etherscan address",
             href := "https://etherscan.io/address/0x6f54ca6f6ede96662024ffd61bfd18f3f4e34dff" },
           { text := "OptimismPortal.sol#L434 - Etherscan source code, depositTransaction function",
             href := "https://etherscan.io/address/0x43260ee547c3965bb2a0174763bb8fecc650ba4a#code#F1#L434" }] },
    operator :=
      { tableBase "CENTRALIZED_OPERATOR" with references :=
          [{ text := "L2OutputOracle.sol#L30 - Etherscan source code, CHALLENGER address",
             href := "https://etherscan.io/address/0x9eedde6b4D3263b97209Ba860eDF3Fc6a8fB6a44#code#F1#L30" },
           { text := "L2OutputOracle.sol#L35 - Etherscan source code, PROPOSER address",
             href := "https://etherscan.io/address/0x9eedde6b4D3263b97209Ba860eDF3Fc6a8fB6a44#code#F1#L35" },
           { text := "Decentralizing the sequencer - OP Stack docs",
             href := "https://community.optimism.io/docs/protocol/#decentralizing-the-sequencer" }] },
    forceTransactions :=
      { tableBase "CANONICAL_ORDERING" with references :=
          [{ text := "Sequencing Window - OP Stack specs",
             href := "https://github.com/ourzora/optimism/blob/51eeb76efeb32b3df3e978f311188aa29f5e3e94/specs/glossary.md#sequencing-window" },
           { text := "OptimismPortal.sol#L434 - Etherscan source code, depositTransaction function",
             href := "https://etherscan.io/address/0x43260ee547c3965bb2a0174763bb8fecc650ba4a#code#F1#L434" }] },
    exitMechanisms :=
      [{ tableBase "EXITS_REGULAR optimistic merkle-proof" with
           references :=
             [{ text := "OptimismPortal.sol#L242 - Etherscan source code, proveWithdrawalTransaction function",
                href := "https://etherscan.io/address/0x43260ee547c3965bb2a0174763bb8fecc650ba4a#code#F1#L242" },
              { text := "OptimismPortal.sol#L325 - Etherscan source code, finalizeWithdrawalTransaction function",
                href := "https://etherscan.io/address/0x43260ee547c3965bb2a0174763bb8fecc650ba4a#code#F1#L325" },
              { text := "L2OutputOracle.sol#L185 - Etherscan source code, PROPOSER check",
                href := "https://etherscan.io/address/0x9eedde6b4D3263b97209Ba860eDF3Fc6a8fB6a44#code#F1#L185" }],
           risks := [RISK_CENTRALIZED_VALIDATOR] },
       { tableBase "EXITS_FORCED all-withdrawals" with references :=
           [{ text := "Forced withdrawal from an OP Stack blockchain",
              href := "https://stack.optimism.io/docs/security/forced-withdrawal/" }] }],
    smartContracts :=
      { name := "EVM compatible smart contracts are supported",
        description :=
          "OP stack chains are pursuing the EVM Equivalence model. No changes to smart contracts are required regardless of the language they are written in, i.e. anything deployed on L1 can be deployed on L2.",
        risks := [],
        references :=
          [{ text := "Introducing EVM Equivalence",
             href := "https://medium.com/ethereum-optimism/introducing-evm-equivalence-5c2021deb306" }] } }

/-- The `display` block of `zora.ts` lines 44-81, as a function of the
fetched `FINALIZATION_PERIOD_SECONDS` value interpolated into the
liveness explanation. -/
def zoraDisplay (finalizationPeriodSeconds : Nat) : Display :=
  { name := "Zora",
    slug := "zora",
    warning :=
      "Fraud proof system is currently under development. Users need to trust the block proposer to submit correct L1 state roots.",
    description :=
      "Zora is a fast, cost-efficient, and scalable Layer 2 built to help bring media onchain, powered by the OP Stack.",
    purpose := "Universal, NFTs",
    provider := "OP Stack",
    category := "Optimistic Rollup",
    dataAvailabilityMode := "TxData",
    links :=
      { websites := ["https://zora.energy/", "https://zora.co/"],
        apps := [],
        documentation := ["https://docs.zora.co/docs/zora-network/intro"],
        explorers :=
          ["https://explorer.zora.energy/", "https://zora.superscan.network"],
        repositories := ["https://github.com/ourzora/optimism"],
        socialMedia :=
          ["https://twitter.com/ourZORA", "https://instagram.com/our.zora",
           "https://zora.community"] },
    activityDataSource := "Blockchain RPC",
    liveness :=
      { stateUpdatesWarning := OPTIMISTIC_ROLLUP_STATE_UPDATES_WARNING,
        sequencingWindowSeconds := SEQUENCING_WINDOW_SECONDS,
        finalizationPeriodSeconds := finalizationPeriodSeconds } }

/-- The `config` block of `zora.ts` lines 82-129, as a function of the
two escrow configurations produced by `getEscrowDetails`. -/
def zoraConfig (escrows : List EscrowConfig) : Config :=
  { escrows := escrows,
    transactionApi :=
      { type := "rpc", startBlock := 1, url := "https://rpc.zora.co",
        callsPerMinute := 1500, assessCount := "subtractOne" },
    liveness :=
      { proofSubmissions := [],
        batchSubmissions :=
          [{ formula := "transfer",
             fromAddress := "0x625726c858dBF78c0125436C943Bf4b4bE9d9033",
             toAddress := "0x6F54Ca6F6EdE96662024Ffd61BFd18f3f4e34DFf",
             sinceTimestamp := 1686695915 }],
        stateUpdates :=
          [{ formula := "functionCall",
             address := "0x9E6204F750cD866b299594e2aC9eA824E2e5f95c",
             selector := "0x9aaab648",
             functionSignature :=
               "function proposeL2Output(bytes32 _outputRoot, uint256 _l2BlockNumber, bytes32 _l1Blockhash, uint256 _l1BlockNumber)",
             sinceTimestamp := 1686694007 }] } }

/-- The `riskView` block of `zora.ts` lines 131-183, as a function of
the `challengePeriod` value fetched from the discovery snapshot; the
`sources` lists are the explicit literals of the file and the table
entries record the exact arguments they were built from. -/
def zoraRiskView (challengePeriod : Nat) : RiskView :=
  { stateValidation := { entry := .STATE_NONE, sources := [] },
    dataAvailability :=
      { entry := .DATA_ON_CHAIN,
        sources :=
          [{ contract := "OptimismPortal",
             references :=
               ["https://etherscan.io/address/0x43260ee547c3965bb2a0174763bb8FEcC650BA4A#code#F1#L434"] }] },
    exitWindow :=
      { entry := .EXIT_WINDOW upgradeDelay challengePeriod,
        sources :=
          [{ contract := "OptimismPortal",
             references :=
               ["https://etherscan.io/address/0x1a0ad011913A150f69f6A19DF447A0CfD9551054"] }] },
    sequencerFailure :=
      { entry := .SEQUENCER_SELF_SEQUENCE SEQUENCING_WINDOW_SECONDS,
        sources :=
          [{ contract := "OptimismPortal",
             references :=
               ["https://etherscan.io/address/0x43260ee547c3965bb2a0174763bb8FEcC650BA4A#code#F1#L434"] }] },
    proposerFailure :=
      { entry := .PROPOSER_CANNOT_WITHDRAW,
        sources :=
          [{ contract := "L2OutputOracle",
             references :=
               ["https://etherscan.io/address/0x9eedde6b4D3263b97209Ba860eDF3Fc6a8fB6a44#code#F1#L186"] }] },
    destinationToken := { entry := .NATIVE_AND_CANONICAL, sources := [] },
    validatedBy := { entry := .VALIDATED_BY_ETHEREUM, sources := [] } }

/-- The description given to `getMultisigPermission` for `ZoraMultisig`
(`zora.ts` line 322). -/
def zoraMultisigDescription : String :=
  "This address is the owner of the following contracts: ProxyAdmin, SystemConfig. It is also designated as a Guardian of the OptimismPortal, meaning it can halt withdrawals. It can upgrade the bridge implementation potentially gaining access to all funds, and change the sequencer, state root proposer or any other system component (unlimited upgrade power)."

/-- The description given to `getMultisigPermission` for
`ChallengerMultisig` (`zora.ts` line 326). -/
def challengerMultisigDescription : String :=
  "This address is the permissioned challenger of the system. It can delete non finalized roots without going through the fault proof process."

/-- The role map passed to `getOpStackPermissions`
(`zora.ts` lines 328-333). -/
def zoraRoleMap : List (String × String) :=
  [("batcherHash", "Sequencer"), ("PROPOSER", "Proposer"),
   ("GUARDIAN", "Guardian"), ("CHALLENGER", "Challenger")]

/-- The description of the `L1ERC721Bridge` contract details
(`zora.ts` lines 338-342). -/
def erc721BridgeDescription : String :=
  "The L1ERC721Bridge contract is the main entry point to deposit ERC721 tokens from L1 to L2."

/-- The `contracts.addresses` list of `zora.ts` lines 336-343. -/
def zoraContractAddresses : List ContractDetails :=
  getOpStackContractDetails upgradesProxy ++
    [getContractDetails "L1ERC721Bridge" erc721BridgeDescription upgradesProxy]

/-- The full zora record as a pure function of the values obtained from
the discovery snapshot: the two reads of
`L2OutputOracle.FINALIZATION_PERIOD_SECONDS` (bound to
`FINALIZATION_PERIOD_SECONDS` and `challengePeriod` in the file), the
escrow configurations, the resolved permissions and the contract
details. -/
def zoraRecord (finalizationPeriodSeconds challengePeriod : Nat)
    (escrows : List EscrowConfig) (permissions : List PermissionEntry)
    (contractAddresses : List ContractDetails) : Layer2 :=
  { type := "layer2",
    id := "zora",
    display := zoraDisplay finalizationPeriodSeconds,
    config := zoraConfig escrows,
    riskView := zoraRiskView challengePeriod,
    stage := getStage zoraStageCriteria zoraStageContext,
    stateDerivation := "DERIVATION.OPSTACK ZORA",
    technology := zoraTechnology,
    permissions := permissions,
    contracts :=
      { addresses := contractAddresses,
        risks := ["CONTRACTS.UPGRADE_NO_DELAY_RISK"] },
    milestones :=
      [{ name := "Zora Network Launch",
         link := "https://twitter.com/ourZORA/status/1671602234994622464",
         date := "2023-06-21T00:00:00Z",
         description := "Zora Network is live on mainnet." }],
    knowledgeNuggets :=
      [{ title := "How Optimism compresses data",
         url := "https://twitter.com/bkiepuszewski/status/1508740414492323840?s=20&t=vMgR4jW1ssap-A-MBsO4Jw",
         thumbnail := "NUGGETS.THUMBNAILS.L2BEAT_03" },
       { title := "Bedrock Explainer",
         url := "https://community.optimism.io/docs/developers/bedrock/explainer/",
         thumbnail := "NUGGETS.THUMBNAILS.OPTIMISM_04" },
       { title := "Modular Rollup Theory",
         url := "https://www.youtube.com/watch?v=jnVjhp41pcc",
         thumbnail := "NUGGETS.THUMBNAILS.MODULAR_ROLLUP" }] }

/-- Building the zora record from a discovery snapshot: the discovery
reads happen in the order of the file (the two top-level
`getContractValue` reads, then the two `getEscrowDetails` calls of
`config.escrows`, then the permission resolutions, then the contract
details), and the first failure aborts the build. -/
def buildZora (s : DiscoverySnapshot) : Except DiscoveryError Layer2 := do
  let FINALIZATION_PERIOD_SECONDS ←
    getContractValue s "L2OutputOracle" "FINALIZATION_PERIOD_SECONDS"
  let challengePeriod ←
    getContractValue s "L2OutputOracle" "FINALIZATION_PERIOD_SECONDS"
  let e1 ← getEscrowDetails (applyUpgradesProxy escrow1Base upgradesProxy)
  let e2 ← getEscrowDetails (applyUpgradesProxy escrow2Base upgradesProxy)
  let p1 ← getMultisigPermission s "ZoraMultisig" zoraMultisigDescription
  let p2 ← getMultisigPermission s "ChallengerMultisig"
    challengerMultisigDescription
  let p3 ← getOpStackPermissions s zoraRoleMap
  pure (zoraRecord FINALIZATION_PERIOD_SECONDS challengePeriod [e1, e2]
    (p1 ++ p2 ++ p3) zoraContractAddresses)

/-- The names of the required risk dimensions. -/
def requiredRiskDimensions : List String :=
  ["stateValidation", "dataAvailability", "exitWindow", "sequencerFailure",
   "proposerFailure", "destinationToken", "validatedBy"]

/-- Look up a risk dimension of a risk view by name. -/
def lookupRiskDimension (rv : RiskView) (d : String) : Option RiskViewEntry :=
  if d == "stateValidation" then some rv.stateValidation
  else if d == "dataAvailability" then some rv.dataAvailability
  else if d == "exitWindow" then some rv.exitWindow
  else if d == "sequencerFailure" then some rv.sequencerFailure
  else if d == "proposerFailure" then some rv.proposerFailure
  else if d == "destinationToken" then some rv.destinationToken
  else if d == "validatedBy" then some rv.validatedBy
  else none

/-- Whether a token selection allows a given token symbol; the wildcard
allows every token. -/
def allowsToken (t : TokenSelection) (sym : String) : Bool :=
  match t with
  | .wildcard => true
  | .tokenList l => l.contains sym

/-- All text/href reference pairs of the technology block. -/
def technologyReferences (t : Technology) : List Reference :=
  t.stateCorrectness.references ++ t.dataAvailability.references ++
    t.operator.references ++ t.forceTransactions.references ++
    (t.exitMechanisms.map (fun m => m.references)).flatten ++
    t.smartContracts.references

/-- All source-reference URLs of the risk-view block. -/
def riskViewSourceUrls (rv : RiskView) : List String :=
  ((rv.stateValidation.sources ++ rv.dataAvailability.sources ++
      rv.exitWindow.sources ++ rv.sequencerFailure.sources ++
      rv.proposerFailure.sources ++ rv.destinationToken.sources ++
      rv.validatedBy.sources).map (fun s => s.references)).flatten

/-- Every reference of the list has a non-empty label and a non-empty
URL. -/
def referencesNonEmpty (l : List Reference) : Bool :=
  l.all (fun r => !(r.text == "") && !(r.href == ""))

/-- A concrete discovery snapshot that carries every fact the zora
build needs, with `L2OutputOracle.FINALIZATION_PERIOD_SECONDS = 604800`
(7 days). -/
def exampleSnapshot : DiscoverySnapshot :=
  { contractValues := fun c f =>
      if c == "L2OutputOracle" && f == "FINALIZATION_PERIOD_SECONDS" then
        some 604800
      else none,
    multisigAddresses := fun n =>
      if n == "ZoraMultisig" then
        some "0x0000000000000000000000000000000000000001"
      else if n == "ChallengerMultisig" then
        some "0x0000000000000000000000000000000000000002"
      else none,
    roleAddresses := fun r =>
      if r == "batcherHash" then
        some "0x0000000000000000000000000000000000000003"
      else if r == "PROPOSER" then
        some "0x0000000000000000000000000000000000000004"
      else if r == "GUARDIAN" then
        some "0x0000000000000000000000000000000000000005"
      else if r == "CHALLENGER" then
        some "0x0000000000000000000000000000000000000006"
      else none }

/-- A discovery snapshot with no data at all; in particular it lacks
`L2OutputOracle.FINALIZATION_PERIOD_SECONDS`. -/
def emptySnapshot : DiscoverySnapshot :=
  { contractValues := fun _ _ => none,
    multisigAddresses := fun _ => none,
    roleAddresses := fun _ => none }

/-- The escrow configuration produced by `getEscrowDetails` for the
first (ETH) escrow: the explicit fields plus the upgrade fields of the
trailing spread. -/
def escrow1Config : EscrowConfig :=
  { address := "0x1a0ad011913A150f69f6A19DF447A0CfD9551054",
    sinceTimestamp := 1686607200,
    tokens := .tokenList ["ETH"],
    description := "Main entry point for users depositing ETH.",
    upgradableBy := some ["ProxyAdmin"],
    upgradeDelay := some "No delay" }

/-- The escrow configuration produced by `getEscrowDetails` for the
second (wildcard) escrow. -/
def escrow2Config : EscrowConfig :=
  { address := "0x3e2Ea9B92B7E48A52296fD261dc26fd995284631",
    sinceTimestamp := 1686607200,
    tokens := .wildcard,
    description :=
      "Main entry point for users depositing ERC20 token that do not require custom gateway.",
    upgradableBy := some ["ProxyAdmin"],
    upgradeDelay := some "No delay" }

/-- The escrow configurations `buildZora` produces on
`exampleSnapshot`. -/
def exampleEscrows : List EscrowConfig := [escrow1Config, escrow2Config]

/-- The permissions `buildZora` resolves on `exampleSnapshot`. -/
def examplePermissions : List PermissionEntry :=
  [{ name := "ZoraMultisig",
     address := "0x0000000000000000000000000000000000000001",
     description := zoraMultisigDescription },
   { name := "ChallengerMultisig",
     address := "0x0000000000000000000000000000000000000002",
     description := challengerMultisigDescription },
   { name := "Sequencer",
     address := "0x0000000000000000000000000000000000000003",
     description := "" },
   { name := "Proposer",
     address := "0x0000000000000000000000000000000000000004",
     description := "" },
   { name := "Guardian",
     address := "0x0000000000000000000000000000000000000005",
     description := "" },
   { name := "Challenger",
     address := "0x0000000000000000000000000000000000000006",
     description := "" }]

/-- The record `buildZora` produces on `exampleSnapshot`. -/
def exampleRecord : Layer2 :=
  zoraRecord 604800 604800 exampleEscrows examplePermissions
    zoraContractAddresses

/-- The `exitWindow` risk-view entry of `zora.ts` lines 144-154 at
challenge period 604800. -/
def exampleExitWindowEntry : RiskViewEntry :=
  { entry := .EXIT_WINDOW 0 604800,
    sources :=
      [{ contract := "OptimismPortal",
         references :=
           ["https://etherscan.io/address/0x1a0ad011913A150f69f6A19DF447A0CfD9551054"] }] }

/-- A token selection is well-formed when it is the wildcard or a
non-empty list of symbols. -/
def tokensWellFormed (t : TokenSelection) : Bool :=
  match t with
  | .wildcard => true
  | .tokenList l => !l.isEmpty

/-- A stage criteria input with every field of every tier true. -/
def allSatCriteria : StageCriteria :=
  { stage0 :=
      { callsItselfRollup := some true,
        stateRootsPostedToL1 := some true,
        dataAvailabilityOnL1 := some true,
        rollupNodeSourceAvailable := some true },
    stage1 :=
      { stateVerificationOnL1 := some true,
        fraudProofSystemAtLeast5Outsiders := some true,
        usersHave7DaysToExit := some true,
        usersCanExitWithoutCooperation := some true,
        securityCouncilProperlySetUp := some true },
    stage2 :=
      { proofSystemOverriddenOnlyInCaseOfABug := some true,
        fraudProofSystemIsPermissionless := some true,
        delayWith30DExitWindow := some true } }

/-- `allSatCriteria` with the single stage-2 field
`delayWith30DExitWindow` downgraded from true to false. -/
def downgradedCriteria : StageCriteria :=
  { allSatCriteria with
      stage2 :=
        { proofSystemOverriddenOnlyInCaseOfABug := some true,
          fraudProofSystemIsPermissionless := some true,
          delayWith30DExitWindow := some false } }

/-! ## Helper lemmas -/

lemma errorBind {α β : Type} (e : DiscoveryError)
    (f : α → Except DiscoveryError β) :
    (Except.error e >>= f) = (Except.error e : Except DiscoveryError β) := rfl

lemma okBind {α β : Type} (a : α) (f : α → Except DiscoveryError β) :
    (Except.ok a >>= f) = f a := rfl

lemma okMap {α β : Type} (a : α) (f : α → β) :
    (f <$> (Except.ok a : Except DiscoveryError α)) = Except.ok (f a) := rfl

lemma errorMap {α β : Type} (e : DiscoveryError) (f : α → β) :
    (f <$> (Except.error e : Except DiscoveryError α)) =
      (Except.error e : Except DiscoveryError β) := rfl

lemma escrow1_eval :
    getEscrowDetails (applyUpgradesProxy escrow1Base upgradesProxy) =
      .ok escrow1Config := rfl

lemma escrow2_eval :
    getEscrowDetails (applyUpgradesProxy escrow2Base upgradesProxy) =
      .ok escrow2Config := rfl

/-- Any successful build of the zora record reads
`L2OutputOracle.FINALIZATION_PERIOD_SECONDS` and produces `zoraRecord`
with the same value in both the finalization-period and the
challenge-period position, the two literal escrows and the fixed
contract list. -/
lemma buildZora_ok_shape {s : DiscoverySnapshot} {r : Layer2}
    (h : buildZora s = .ok r) :
    ∃ fin perms,
      s.contractValues "L2OutputOracle" "FINALIZATION_PERIOD_SECONDS" =
        some fin ∧
      r = zoraRecord fin fin [escrow1Config, escrow2Config] perms
            zoraContractAddresses := by
  unfold buildZora at h
  cases hv : s.contractValues "L2OutputOracle" "FINALIZATION_PERIOD_SECONDS" with
  | none => simp [getContractValue, hv, errorBind] at h
  | some fin =>
    simp only [getContractValue, hv, escrow1_eval, escrow2_eval, okBind,
      errorBind, okMap, errorMap] at h
    cases hm1 : s.multisigAddresses "ZoraMultisig" with
    | none => simp [getMultisigPermission, hm1, errorBind, okBind] at h
    | some a1 =>
      cases hm2 : s.multisigAddresses "ChallengerMultisig" with
      | none => simp [getMultisigPermission, hm1, hm2, errorBind, okBind] at h
      | some a2 =>
        cases hp : getOpStackPermissions s zoraRoleMap with
        | error e =>
          simp [getMultisigPermission, hm1, hm2, hp, errorBind, okBind,
            errorMap] at h
        | ok p3 =>
          simp only [getMultisigPermission, hm1, hm2, hp, okBind, okMap] at h
          exact ⟨fin, _, rfl, (Except.ok.injEq _ _).mp h |>.symm⟩

lemma forall_le_two (P : Nat → Prop) :
    (∀ m, m ≤ 2 → P m) ↔ (P 0 ∧ P 1 ∧ P 2) := by
  constructor
  · intro h
    exact ⟨h 0 (by omega), h 1 (by omega), h 2 (by omega)⟩
  · rintro ⟨h0, h1, h2⟩ m hm
    interval_cases m
    · exact h0
    · exact h1
    · exact h2

/-- The computed tier is exactly the greatest tier `n ≤ 2` whose tiers
up to `n` are all satisfied. -/
lemma stageLevel_iff (c : StageCriteria) (n : Nat) :
    stageLevel c = some n ↔
      (n ≤ 2 ∧ satisfiedUpTo c n = true ∧
        ∀ m, m ≤ 2 → satisfiedUpTo c m = true → m ≤ n) := by
  rcases n with _ | _ | m <;>
    cases h0 : tierSatisfied c.stage0.fields <;>
      cases h1 : tierSatisfied c.stage1.fields <;>
        cases h2 : tierSatisfied c.stage2.fields <;>
          simp [stageLevel, satisfiedUpTo, h0, h1, h2, forall_le_two]

lemma tierSatisfied_append_false (p s : List (Option Bool)) :
    tierSatisfied (p ++ some false :: s) = false := by
  simp [tierSatisfied, List.all_append]

lemma downgradeAt_unsat {l l' : List (Option Bool)} (h : downgradeAt l l') :
    tierSatisfied l' = false := by
  obtain ⟨p, s, _, rfl⟩ := h
  exact tierSatisfied_append_false p s

/-- Downgrading a single required field never increases the stage
rank. -/
lemma stageRank_mono (c c' : StageCriteria) (h : singleDowngrade c c') :
    stageRank (stageLevel c') ≤ stageRank (stageLevel c) := by
  rcases h with ⟨hd, h1, h2⟩ | ⟨hd, h0, h2⟩ | ⟨hd, h0, h1⟩
  · have hf := downgradeAt_unsat hd
    simp [stageLevel, stageRank, hf]
  · have hf := downgradeAt_unsat hd
    cases ha : tierSatisfied c.stage0.fields <;>
      cases hb : tierSatisfied c.stage1.fields <;>
        cases hc : tierSatisfied c.stage2.fields <;>
          simp [stageLevel, stageRank, hf, h0, h2, ha, hb, hc]
  · have hf := downgradeAt_unsat hd
    cases ha : tierSatisfied c.stage0.fields <;>
      cases hb : tierSatisfied c.stage1.fields <;>
        cases hc : tierSatisfied c.stage2.fields <;>
          simp [stageLevel, stageRank, hf, h0, h1, ha, hb, hc]

/-! ## Claims -/

/-- C1: for every stage-criteria input, `getStage` returns the highest
tier N such that every non-null boolean field at every tier up to and
including N is true; on the criteria of the zora record (all four
stage0 fields true, stage1 containing fields set to false) the computed
classification is Stage 0 and not Stage 1 or Stage 2. -/
theorem C1_getStage_highest_satisfied_tier :
    (∀ c ctx n, (getStage c ctx).stage = some n ↔
      (n ≤ 2 ∧ satisfiedUpTo c n = true ∧
        ∀ m, m ≤ 2 → satisfiedUpTo c m = true → m ≤ n)) ∧
    (getStage zoraStageCriteria zoraStageContext).stage = some 0 ∧
    (getStage zoraStageCriteria zoraStageContext).stage ≠ some 1 ∧
    (getStage zoraStageCriteria zoraStageContext).stage ≠ some 2 := by
  refine ⟨fun c ctx n => stageLevel_iff c n, rfl, by decide, by decide⟩

/-- Witness for C1: the characterization applied to the zora criteria
at tier 0 shows tier 0 is satisfied there. -/
theorem C1_witness : satisfiedUpTo zoraStageCriteria 0 = true :=
  ((C1_getStage_highest_satisfied_tier.1 zoraStageCriteria zoraStageContext
      0).mp rfl).2.1

/-- C2: if the discovery snapshot's value for
`L2OutputOracle.FINALIZATION_PERIOD_SECONDS` is 604800 (and the
`upgradeDelay` constant is 0), the built record's `riskView.exitWindow`
entry is `RISK_VIEW.EXIT_WINDOW` applied to exactly the pair
(0, 604800), plus the listed sources. -/
theorem C2_exitWindow_from_0_604800 (s : DiscoverySnapshot) (r : Layer2)
    (hv : s.contractValues "L2OutputOracle" "FINALIZATION_PERIOD_SECONDS" =
      some 604800)
    (hb : buildZora s = .ok r) :
    r.riskView.exitWindow = exampleExitWindowEntry := by
  obtain ⟨fin, perms, hfin, rfl⟩ := buildZora_ok_shape hb
  rw [hfin] at hv
  have hfin604800 : fin = 604800 := Option.some.inj hv
  subst hfin604800
  rfl

/-- Witness for C2: the concrete snapshot with the field set to 604800
builds a record whose exit window is exactly the (0, 604800) entry. -/
theorem C2_witness : exampleRecord.riskView.exitWindow =
    exampleExitWindowEntry :=
  C2_exitWindow_from_0_604800 exampleSnapshot exampleRecord rfl rfl

/-- C3: for every discovery snapshot lacking the field
`L2OutputOracle.FINALIZATION_PERIOD_SECONDS`, constructing the zora
record fails with `MissingField`; it never substitutes a default. -/
theorem C3_missing_field_aborts (s : DiscoverySnapshot)
    (hv : s.contractValues "L2OutputOracle" "FINALIZATION_PERIOD_SECONDS" =
      none) :
    buildZora s = .error .MissingField := by
  unfold buildZora
  simp [getContractValue, hv, errorBind]

/-- Witness for C3: the empty snapshot fails with `MissingField`. -/
theorem C3_witness : buildZora emptySnapshot = .error .MissingField :=
  C3_missing_field_aborts emptySnapshot rfl

/-- C4: the built record's riskView populates every required risk
dimension, each with an entry drawn from the shared classification
tables; no dimension is omitted. -/
theorem C4_riskView_complete (fin chal : Nat) (escrows : List EscrowConfig)
    (perms : List PermissionEntry) (cds : List ContractDetails) :
    (requiredRiskDimensions.all (fun d =>
      (lookupRiskDimension
        (zoraRecord fin chal escrows perms cds).riskView d).isSome) = true) ∧
    (zoraRecord fin chal escrows perms cds).riskView.stateValidation.entry =
      .STATE_NONE ∧
    (zoraRecord fin chal escrows perms cds).riskView.dataAvailability.entry =
      .DATA_ON_CHAIN ∧
    (zoraRecord fin chal escrows perms cds).riskView.exitWindow.entry =
      .EXIT_WINDOW upgradeDelay chal ∧
    (zoraRecord fin chal escrows perms cds).riskView.sequencerFailure.entry =
      .SEQUENCER_SELF_SEQUENCE SEQUENCING_WINDOW_SECONDS ∧
    (zoraRecord fin chal escrows perms cds).riskView.proposerFailure.entry =
      .PROPOSER_CANNOT_WITHDRAW ∧
    (zoraRecord fin chal escrows perms cds).riskView.destinationToken.entry =
      .NATIVE_AND_CANONICAL ∧
    (zoraRecord fin chal escrows perms cds).riskView.validatedBy.entry =
      .VALIDATED_BY_ETHEREUM :=
  ⟨rfl, rfl, rfl, rfl, rfl, rfl, rfl, rfl⟩

/-- C5: `getEscrowDetails` called with the wildcard token selection
yields a configuration accepted as all tokens (never an empty set), and
every escrow of the built record has either the wildcard or a non-empty
token list. -/
theorem C5_wildcard_all_tokens :
    (∀ p r, p.tokens = TokenSelection.wildcard →
      getEscrowDetails p = .ok r →
      ((∀ sym, allowsToken r.tokens sym = true) ∧
        r.tokens ≠ TokenSelection.tokenList [])) ∧
    (∀ s rec, buildZora s = .ok rec →
      ∀ e ∈ rec.config.escrows, tokensWellFormed e.tokens = true) := by
  constructor
  · intro p r hw hok
    unfold getEscrowDetails at hok
    split at hok
    · split at hok
      · have hr := Except.ok.inj hok
        rw [← hr]
        simp [hw, allowsToken]
      · exact Except.noConfusion hok
    · exact Except.noConfusion hok
  · intro s rec hb e he
    obtain ⟨fin, perms, _, rfl⟩ := buildZora_ok_shape hb
    simp only [zoraRecord, zoraConfig, List.mem_cons, List.not_mem_nil,
      or_false] at he
    rcases he with rfl | rfl
    · rfl
    · rfl

/-- Witness for C5: the second zora escrow (wildcard) allows an
arbitrary token, is not the empty list, and is well-formed in the built
record. -/
theorem C5_witness :
    allowsToken escrow2Config.tokens "DAI" = true ∧
    escrow2Config.tokens ≠ TokenSelection.tokenList [] ∧
    tokensWellFormed escrow2Config.tokens = true :=
  ⟨(C5_wildcard_all_tokens.1 (applyUpgradesProxy escrow2Base upgradesProxy)
      escrow2Config rfl rfl).1 "DAI",
   (C5_wildcard_all_tokens.1 (applyUpgradesProxy escrow2Base upgradesProxy)
      escrow2Config rfl rfl).2,
   C5_wildcard_all_tokens.2 exampleSnapshot exampleRecord rfl escrow2Config
     (List.Mem.tail _ (List.Mem.head _))⟩

/-- C6: if all stage0 and stage1 fields are satisfied the computed tier
is at least 1, and changing any single required field from true to
false never yields a strictly higher computed tier. -/
theorem C6_getStage_monotone :
    (∀ c ctx, tierSatisfied c.stage0.fields = true →
      tierSatisfied c.stage1.fields = true →
      ((getStage c ctx).stage = some 1 ∨ (getStage c ctx).stage = some 2)) ∧
    (∀ c c' ctx, singleDowngrade c c' →
      stageRank (getStage c' ctx).stage ≤ stageRank (getStage c ctx).stage) := by
  constructor
  · intro c ctx h0 h1
    cases h2 : tierSatisfied c.stage2.fields
    · left
      simp [getStage, stageLevel, h0, h1, h2]
    · right
      simp [getStage, stageLevel, h0, h1, h2]
  · intro c c' ctx h
    exact stageRank_mono c c' h

/-- Witness for C6: on the all-true criteria the tier is at least 1,
and downgrading the single stage-2 field `delayWith30DExitWindow` does
not increase the rank. -/
theorem C6_witness :
    ((getStage allSatCriteria zoraStageContext).stage = some 1 ∨
      (getStage allSatCriteria zoraStageContext).stage = some 2) ∧
    stageRank (getStage downgradedCriteria zoraStageContext).stage ≤
      stageRank (getStage allSatCriteria zoraStageContext).stage :=
  ⟨C6_getStage_monotone.1 allSatCriteria zoraStageContext rfl rfl,
   C6_getStage_monotone.2 allSatCriteria downgradedCriteria zoraStageContext
     (Or.inr (Or.inr ⟨⟨[some true, some true], [], rfl, rfl⟩, rfl, rfl⟩))⟩

/-- C7: `getStage` is deterministic: identical criteria-and-context
inputs yield identical StageResults; the classification depends only on
the declared criteria. -/
theorem C7_getStage_deterministic (c₁ c₂ : StageCriteria)
    (ctx₁ ctx₂ : StageContext) (hc : c₁ = c₂) (hctx : ctx₁ = ctx₂) :
    getStage c₁ ctx₁ = getStage c₂ ctx₂ := by
  subst hc
  subst hctx
  rfl

/-- Witness for C7: two applications at the zora inputs coincide. -/
theorem C7_witness :
    getStage zoraStageCriteria zoraStageContext =
      getStage zoraStageCriteria zoraStageContext :=
  C7_getStage_deterministic zoraStageCriteria zoraStageCriteria
    zoraStageContext zoraStageContext rfl rfl

/-- C8: in the spread-merge composition of the escrow parameters the
later spread fields win: for both zora escrows the merge with
`upgradesProxy` yields `upgradableBy = [ProxyAdmin]` and
`upgradeDelay = No delay` while address, sinceTimestamp, tokens and
description are preserved unchanged; in general the merge sets exactly
the spread fields and preserves the rest. -/
theorem C8_spread_later_fields_win :
    (∀ p u, (applyUpgradesProxy p u).upgradableBy = some u.upgradableBy ∧
      (applyUpgradesProxy p u).upgradeDelay = some u.upgradeDelay ∧
      (applyUpgradesProxy p u).address = p.address ∧
      (applyUpgradesProxy p u).sinceTimestamp = p.sinceTimestamp ∧
      (applyUpgradesProxy p u).tokens = p.tokens ∧
      (applyUpgradesProxy p u).description = p.description) ∧
    getEscrowDetails (applyUpgradesProxy escrow1Base upgradesProxy) =
      .ok escrow1Config ∧
    getEscrowDetails (applyUpgradesProxy escrow2Base upgradesProxy) =
      .ok escrow2Config ∧
    escrow1Config.upgradableBy = some ["ProxyAdmin"] ∧
    escrow1Config.upgradeDelay = some "No delay" ∧
    escrow2Config.upgradableBy = some ["ProxyAdmin"] ∧
    escrow2Config.upgradeDelay = some "No delay" ∧
    escrow1Config.address = escrow1Base.address ∧
    escrow1Config.sinceTimestamp = escrow1Base.sinceTimestamp ∧
    escrow1Config.tokens = escrow1Base.tokens ∧
    escrow1Config.description = escrow1Base.description ∧
    escrow2Config.address = escrow2Base.address ∧
    escrow2Config.sinceTimestamp = escrow2Base.sinceTimestamp ∧
    escrow2Config.tokens = escrow2Base.tokens ∧
    escrow2Config.description = escrow2Base.description :=
  ⟨fun _ _ => ⟨rfl, rfl, rfl, rfl, rfl, rfl⟩, rfl, rfl, rfl, rfl, rfl, rfl,
   rfl, rfl, rfl, rfl, rfl, rfl, rfl, rfl⟩

/-- C9: every text/href reference pair of the technology sections of
the built record has a non-empty label and URL, and every risk-view
source reference URL is non-empty. -/
theorem C9_references_nonempty (fin chal : Nat) (escrows : List EscrowConfig)
    (perms : List PermissionEntry) (cds : List ContractDetails) :
    referencesNonEmpty (technologyReferences
      (zoraRecord fin chal escrows perms cds).technology) = true ∧
    ((riskViewSourceUrls
        (zoraRecord fin chal escrows perms cds).riskView).all
      (fun u => !(u == ""))) = true :=
  ⟨rfl, rfl⟩

/-- C10: both top-level constants read the same discovery field, so in
every successfully built record the finalization period rendered into
the liveness explanation equals the challenge period inside the
`exitWindow` risk entry. -/
theorem C10_finalization_equals_challenge (s : DiscoverySnapshot)
    (r : Layer2) (hb : buildZora s = .ok r) :
    r.riskView.exitWindow.entry =
      RiskEntry.EXIT_WINDOW upgradeDelay
        r.display.liveness.finalizationPeriodSeconds := by
  obtain ⟨fin, perms, _, rfl⟩ := buildZora_ok_shape hb
  rfl

/-- Witness for C10: the concretely built record has the property. -/
theorem C10_witness :
    exampleRecord.riskView.exitWindow.entry =
      RiskEntry.EXIT_WINDOW upgradeDelay
        exampleRecord.display.liveness.finalizationPeriodSeconds :=
  C10_finalization_equals_challenge exampleSnapshot exampleRecord rfl

end Zora
